import Mathlib

/-!
Shallow embedding of the omics-demo dashboard backend
(`src/api/validators.py` and `src/api/server.py`).

JSON payload values are modelled by `JValue`, validation schemas by
association lists from field names to constraints (Python dicts keep
insertion order), and each route handler becomes a pure function over an
explicit environment recording what every upstream AWS call would return
(`Except` for calls that may raise).
-/

namespace OmicsDemo

/-- Runtime type tags usable as schema validators (`int`, `str`,
`bool`), mirroring the Python types a schema entry may hold. -/
inductive JType where
  | tInt
  | tStr
  | tBool
deriving DecidableEq

/-- JSON values that can appear in a request payload. -/
inductive JValue where
  | jInt (n : ℤ)
  | jStr (s : String)
  | jBool (b : Bool)
  | jFloat (q : ℚ)
  | jNull
deriving DecidableEq

/-- Python `int()` applied to a real value: truncation toward zero. -/
def pyInt (x : ℚ) : ℤ := if 0 ≤ x then ⌊x⌋ else ⌈x⌉

/-- Python truthiness of a payload value: zero numbers, the empty
string and `None` are falsy. -/
def pyTruthy : JValue → Bool
  | .jInt n => n != 0
  | .jStr s => s != ""
  | .jBool b => b
  | .jFloat q => q != 0
  | .jNull => false

/-- Python `str(v)` of a payload value. The float rendering differs
textually from CPython's, but it is never empty, which is all the
validator observes of it (truthiness). -/
def pyStr : JValue → String
  | .jInt n => toString n
  | .jStr s => s
  | .jBool b => if b then "True" else "False"
  | .jFloat q => toString q
  | .jNull => "None"

/-- Python `isinstance(value, tag)` (`bool` is a subclass of `int`):
the test that the `elif` branch of `validate_json` (`validators.py`
lines 33-38) would apply, and the reading of "matches the value's
runtime type" with which the original claim is stated. -/
def jIsInstance : JValue → JType → Bool
  | .jInt _, .tInt => true
  | .jBool _, .tInt => true
  | .jStr _, .tStr => true
  | .jBool _, .tBool => true
  | _, _ => false

/-- The accumulated value of an all-digit character run; `none` on the
first non-digit. -/
def digitsVal : List Char → ℕ → Option ℕ
  | [], acc => some acc
  | c :: cs, acc =>
    if c.isDigit then digitsVal cs (acc * 10 + (c.toNat - 48)) else none

/-- Python `int(s)` on a string: surrounding spaces, an optional sign,
then at least one decimal digit; anything else raises (`none`). Python
allowances not exercised by any payload modelled here (non-ASCII
whitespace, underscore separators) are omitted. -/
def pyIntOfString (s : String) : Option ℤ :=
  match ((s.toList.dropWhile (· == ' ')).reverse.dropWhile (· == ' ')).reverse with
  | [] => none
  | '-' :: rest =>
    match rest with
    | [] => none
    | _ :: _ => (digitsVal rest 0).map (fun n => -(n : ℤ))
  | '+' :: rest =>
    match rest with
    | [] => none
    | _ :: _ => (digitsVal rest 0).map (fun n => (n : ℤ))
  | rest => (digitsVal rest 0).map (fun n => (n : ℤ))

/-- Calling a type tag on a payload value as Python does (`int(v)`,
`str(v)`, `bool(v)`): the converted value, or a raised exception —
`int` of an unparseable string raises `ValueError`, `int(None)` raises
`TypeError`. -/
def callType : JType → JValue → Except String JValue
  | .tInt, .jInt n => .ok (.jInt n)
  | .tInt, .jBool b => .ok (.jInt (if b then 1 else 0))
  | .tInt, .jFloat q => .ok (.jInt (pyInt q))
  | .tInt, .jStr s =>
    match pyIntOfString s with
    | some n => .ok (.jInt n)
    | none => .error ("invalid literal for int() with base 10: " ++ s)
  | .tInt, .jNull => .error "int() argument cannot be NoneType"
  | .tStr, v => .ok (.jStr (pyStr v))
  | .tBool, v => .ok (.jBool (pyTruthy v))

/-- A schema entry: either a callable predicate or a type tag
(`validators.py`, docstring of `validate_json`). -/
inductive Constraint where
  | pred (p : JValue → Bool)
  | ty (t : JType)

/-- A validation schema: field names mapped to constraints, in insertion
order. -/
def Schema : Type := List (String × Constraint)

/-- A request payload: `none` models an absent/null `request.json`, and
`some l` a JSON object with fields `l` in order. -/
def Payload : Type := Option (List (String × JValue))

/-- Python truthiness of `request.json`: `None` and the empty object are
falsy. -/
def payloadFalsy : Payload → Bool
  | none => true
  | some [] => true
  | some (_ :: _) => false

/-- Outcome of `validate_json`'s wrapper: the wrapped handler runs
(`Valid`), one of the 400 error bodies is returned, or an exception
raised while calling a type tag escapes the wrapper to the route
boundary (`Raised`). The `elif not isinstance(...)` branch of
`validators.py` (lines 33-38) can produce no outcome: both constraint
kinds — predicate functions and type objects — are callable in Python,
so `callable(validator)` always takes the first branch and the
"Invalid type" error is dead code. -/
inductive VResult where
  | Valid
  | MissingBody
  | MissingField (f : String)
  | InvalidValue (f : String)
  | Raised (e : String)
deriving DecidableEq

/-- The field loop of `validate_json` (`validators.py` lines 24-38):
for each schema field in order, check presence, then invoke the
validator — `callable(validator)` is true for predicate functions and
for type tags alike, so a type tag is *called* on the value and the
truthiness of the result decides (`not validator(request.json[field])`);
a conversion that raises propagates out of the wrapper. -/
def checkFields : List (String × Constraint) → List (String × JValue) → VResult
  | [], _ => .Valid
  | (f, c) :: rest, payload =>
    match payload.lookup f with
    | none => .MissingField f
    | some v =>
      match c with
      | .pred p =>
        if p v then checkFields rest payload else .InvalidValue f
      | .ty t =>
        match callType t v with
        | .error e => .Raised e
        | .ok r =>
          if pyTruthy r then checkFields rest payload else .InvalidValue f

/-- `validate_json` (`validators.py` lines 16-42): if the payload is falsy
and the schema non-empty, reject with the missing-JSON-body error;
otherwise run the field loop. -/
def validate_json (schema : Schema) (payload : Payload) : VResult :=
  if payloadFalsy payload && !schema.isEmpty then .MissingBody
  else checkFields schema (payload.getD [])

/-- `is_positive_int` (`validators.py` lines 45-49): `isinstance(value,
int)` and `value > 0`. A boolean passes the `isinstance` test (`bool`
subclasses `int`) and `True > 0` holds. -/
def is_positive_int : JValue → Bool
  | .jInt n => n > 0
  | .jBool b => b
  | _ => false

/-- `is_non_empty_string` (`validators.py` lines 52-56). -/
def is_non_empty_string : JValue → Bool
  | .jStr s => s.trim.length > 0
  | _ => false

/-- A schema field as the code checks it: present in the payload, and
invoking its constraint on the value returns truthy without raising. -/
def fieldOk (payload : List (String × JValue)) (fc : String × Constraint) : Bool :=
  match payload.lookup fc.1 with
  | none => false
  | some v =>
    match fc.2 with
    | .pred p => p v
    | .ty t =>
      match callType t v with
      | .ok r => pyTruthy r
      | .error _ => false

/-- Every schema field passes the code's check. -/
def allFieldsOk (schema : Schema) (payload : Payload) : Bool :=
  schema.all (fieldOk (payload.getD []))

/-- The first schema field, in insertion order, that fails the code's
check. -/
def firstOffending : List (String × Constraint) → List (String × JValue) → Option String
  | [], _ => none
  | fc :: rest, payload =>
    if fieldOk payload fc then firstOffending rest payload else some fc.1

/-- A schema field as the claim reads it: present in the payload, and a
predicate constraint returns true on the value / a type-tag constraint
matches the value's runtime type. -/
def specFieldOk (payload : List (String × JValue)) (fc : String × Constraint) : Bool :=
  match payload.lookup fc.1 with
  | none => false
  | some v =>
    match fc.2 with
    | .pred p => p v
    | .ty t => jIsInstance v t

/-- Every schema field passes the claim's reading of the check. -/
def specAllFieldsOk (schema : Schema) (payload : Payload) : Bool :=
  schema.all (specFieldOk (payload.getD []))

/-- The first schema field, in insertion order, that fails the claim's
reading of the check. -/
def specFirstOffending : List (String × Constraint) → List (String × JValue) → Option String
  | [], _ => none
  | fc :: rest, payload =>
    if specFieldOk payload fc then specFirstOffending rest payload else some fc.1

/-- Whether a validation outcome names the given field in its error. -/
def namesField : VResult → String → Bool
  | .MissingField f, g => f == g
  | .InvalidValue f, g => f == g
  | _, _ => false

theorem checkFields_valid_iff (schema : List (String × Constraint))
    (payload : List (String × JValue)) :
    checkFields schema payload = .Valid ↔ schema.all (fieldOk payload) = true := by
  induction schema with
  | nil => simp [checkFields]
  | cons fc rest ih =>
    obtain ⟨f, c⟩ := fc
    simp only [checkFields, List.all_cons, Bool.and_eq_true]
    cases hl : payload.lookup f with
    | none => simp [fieldOk, hl]
    | some v =>
      cases c with
      | pred p =>
        by_cases hp : p v = true
        · simp [fieldOk, hl, hp, ih]
        · simp [fieldOk, hl, hp]
      | ty t =>
        cases hct : callType t v with
        | error e => simp [fieldOk, hl, hct]
        | ok r =>
          by_cases hr : pyTruthy r = true
          · simp [fieldOk, hl, hct, hr, ih]
          · simp [fieldOk, hl, hct, hr]

theorem checkFields_names_firstOffending (schema : List (String × Constraint))
    (payload : List (String × JValue)) (f : String)
    (h : firstOffending schema payload = some f) :
    namesField (checkFields schema payload) f = true ∨
    ∃ e, checkFields schema payload = .Raised e := by
  induction schema with
  | nil => simp [firstOffending] at h
  | cons fc rest ih =>
    obtain ⟨g, c⟩ := fc
    by_cases hok : fieldOk payload (g, c) = true
    · rw [firstOffending, if_pos hok] at h
      have hrec := ih h
      simp only [checkFields]
      cases hl : payload.lookup g with
      | none => simp [fieldOk, hl] at hok
      | some v =>
        cases c with
        | pred p =>
          have hp : p v = true := by simpa [fieldOk, hl] using hok
          simpa [hp] using hrec
        | ty t =>
          cases hct : callType t v with
          | error e => simp [fieldOk, hl, hct] at hok
          | ok r =>
            have hr : pyTruthy r = true := by simpa [fieldOk, hl, hct] using hok
            simpa [hct, hr] using hrec
    · rw [firstOffending, if_neg hok] at h
      obtain rfl : g = f := by simpa using h
      simp only [checkFields]
      cases hl : payload.lookup g with
      | none => left; simp [namesField]
      | some v =>
        cases c with
        | pred p =>
          have hp : ¬ p v = true := by simpa [fieldOk, hl] using hok
          left
          simp [hp, namesField]
        | ty t =>
          cases hct : callType t v with
          | error e =>
            right
            exact ⟨e, by simp [hct]⟩
          | ok r =>
            have hr : ¬ pyTruthy r = true := by simpa [fieldOk, hl, hct] using hok
            left
            simp [hct, hr, namesField]

/-- The claim C2 exactly as stated: for every schema and payload,
`validate_json` is `Valid` iff every schema field is present and
satisfies its constraint — a predicate constraint returning true on the
value, a type-tag constraint matching the value's *runtime type* — and
otherwise the returned error names the first offending field in schema
insertion order. -/
def ClaimC2 : Prop :=
  ∀ (schema : Schema) (payload : Payload),
    (validate_json schema payload = .Valid ↔ specAllFieldsOk schema payload = true) ∧
    (∀ f, specFirstOffending schema (payload.getD []) = some f →
      namesField (validate_json schema payload) f = true)

theorem payloadFalsy_getD (payload : Payload) (h : payloadFalsy payload = true) :
    payload.getD [] = [] := by
  match payload with
  | none => rfl
  | some [] => rfl
  | some (_ :: _) => simp [payloadFalsy] at h

/-- C2 counterexample: with the schema `{"a": int}` and the payload
`{"a": 0}`, the field is present and its value `0` *is* of runtime type
`int`, so the claim demands `Valid`; but `callable(int)` is true in
Python, so the code calls the type tag on the value, `int(0)` is falsy,
and the request is rejected with "Invalid value for field: a". -/
theorem C2_counterexample : ¬ ClaimC2 := by
  intro h
  have := (h [("a", Constraint.ty JType.tInt)]
    (some [("a", JValue.jInt 0)])).1.mpr (by decide)
  revert this
  decide

/-- C2 (amended): `validate_json schema payload` is `Valid` iff every
schema field is present in the payload and *invoking* its constraint on
the value returns a truthy result without raising — a type tag, being
callable, is applied as a conversion, so runtime types are never
compared: `int` rejects the value `0` as falsy, accepts the string
`"5"`, and raises on the string `"abc"`, the exception escaping the
validator. When the payload is a non-empty object, a non-raising
failure names the first offending field in schema insertion order
(short-circuiting); a falsy payload (absent/null or the empty object)
with a non-empty schema yields the missing-JSON-body error, naming no
field; and `validate_json {} null` is `Valid`. -/
theorem C2_validate_amended (schema : Schema) (payload : Payload) :
    (validate_json schema payload = .Valid ↔ allFieldsOk schema payload = true) ∧
    (∀ l, payload = some l → l ≠ [] →
      ∀ f, firstOffending schema l = some f →
        namesField (validate_json schema payload) f = true ∨
        ∃ e, validate_json schema payload = .Raised e) ∧
    (payloadFalsy payload = true → schema ≠ [] →
      validate_json schema payload = .MissingBody) ∧
    validate_json [] none = .Valid ∧
    validate_json [("a", Constraint.ty JType.tInt)] (some [("a", JValue.jInt 0)]) =
      .InvalidValue "a" ∧
    validate_json [("a", Constraint.ty JType.tInt)] (some [("a", JValue.jStr "5")]) =
      .Valid ∧
    validate_json [("a", Constraint.ty JType.tInt)] (some [("a", JValue.jStr "abc")]) =
      .Raised "invalid literal for int() with base 10: abc" := by
  refine ⟨?_, ?_, ?_, rfl, by decide, by decide, by decide⟩
  · by_cases hc : (payloadFalsy payload && !schema.isEmpty) = true
    · rw [validate_json, if_pos hc]
      obtain ⟨hf, hs⟩ := Bool.and_eq_true_iff.mp hc
      constructor
      · intro habs; exact absurd habs (by simp)
      · intro hall
        exfalso
        rw [allFieldsOk, payloadFalsy_getD payload hf] at hall
        match schema, hs with
        | fc :: rest, _ =>
          simp only [List.all_cons, Bool.and_eq_true] at hall
          have hfk := hall.1
          simp [fieldOk, List.lookup] at hfk
    · rw [validate_json, if_neg hc]
      exact checkFields_valid_iff schema (payload.getD [])
  · rintro l rfl hl f hf
    have hfalsy : payloadFalsy (some l) = false := by
      match l, hl with
      | _ :: _, _ => rfl
    rw [validate_json, hfalsy]
    simpa using checkFields_names_firstOffending schema l f hf
  · intro hf hs
    have hs' : schema.isEmpty = false := by
      match schema, hs with
      | _ :: _, _ => rfl
    rw [validate_json, hf, hs']
    rfl

/-- C2 witness: a one-field schema with the positive-integer predicate
and a non-empty payload carrying `0` is rejected naming field `"a"`
(the predicate cannot raise, so the disjunction's left side holds). -/
theorem C2_witness :
    ([("a", JValue.jInt 0)] : List (String × JValue)) ≠ [] ∧
    (namesField
       (validate_json [("a", Constraint.pred is_positive_int)]
         (some [("a", JValue.jInt 0)])) "a" = true ∨
      ∃ e, validate_json [("a", Constraint.pred is_positive_int)]
        (some [("a", JValue.jInt 0)]) = .Raised e) :=
  ⟨by decide,
    (C2_validate_amended [("a", Constraint.pred is_positive_int)]
        (some [("a", JValue.jInt 0)])).2.1
      [("a", JValue.jInt 0)] rfl (by decide) "a" (by decide)⟩

/-- C9: a present-but-empty JSON object body is treated exactly like an
absent body: with any non-empty schema it produces the
missing-JSON-body error, not a missing-required-field error. -/
theorem C9_empty_object_is_missing_body (schema : Schema) (h : schema ≠ []) :
    validate_json schema (some []) = .MissingBody ∧
    validate_json schema (some []) = validate_json schema none := by
  have hs' : schema.isEmpty = false := by
    match schema, h with
    | _ :: _, _ => rfl
  constructor
  · rw [validate_json, hs']; rfl
  · rw [validate_json, validate_json, hs']; rfl

/-- C9 witness at the schema `{"a": int}`. -/
theorem C9_witness :
    ([("a", Constraint.ty JType.tInt)] : Schema) ≠ [] ∧
    validate_json [("a", Constraint.ty JType.tInt)] (some []) = .MissingBody :=
  ⟨by simp,
    (C9_empty_object_is_missing_body [("a", Constraint.ty JType.tInt)] (by simp)).1⟩

/-- The status values a `/api/status` or error response can carry
(`server.py`). -/
inductive DemoStatus where
  | READY
  | RUNNING
  | COMPLETED
  | FAILED
  | NOT_FOUND
  | ERROR
deriving DecidableEq

/-- The three job-state counts observed by `/api/status`: lengths of the
`jobSummaryList` arrays returned for RUNNING, SUCCEEDED and FAILED. -/
structure JobQueueSnapshot where
  runningCount : ℕ
  succeededCount : ℕ
  failedCount : ℕ
deriving DecidableEq

/-- The status-determination block of `get_status` (`server.py` lines
129-144): four-way precedence over the snapshot, producing the status,
the message, and `completed_samples`. A list is truthy iff its length is
positive. -/
def aggregateStatus (s : JobQueueSnapshot) : DemoStatus × String × ℕ :=
  if s.runningCount > 0 then
    (.RUNNING, "Processing samples... (" ++ toString s.runningCount ++ " jobs running)",
      s.succeededCount)
  else if s.failedCount > 0 ∧ s.succeededCount = 0 then
    (.FAILED, "Demo failed with " ++ toString s.failedCount ++ " failed jobs",
      s.succeededCount)
  else if s.succeededCount > 0 then
    (.COMPLETED, "Analysis completed with " ++ toString s.succeededCount ++ " successful jobs",
      s.succeededCount)
  else
    (.READY, "Demo ready to start", 0)

/-- What each upstream AWS interaction of `/api/status` would do:
client construction (`boto3.Session(...).client(...)`) may raise, the
queue-describe call may raise or return a list of queues, and each of the
three `list_jobs` calls may raise or return its `jobSummaryList` length. -/
structure BatchEnv where
  batchClient : Except String Unit
  describeJobQueues : Except String (List String)
  listRunning : Except String ℕ
  listSucceeded : Except String ℕ
  listFailed : Except String ℕ

/-- A JSON response of `/api/status`: status field, message, HTTP code,
and the `completedSamples` field when present (`none` on the error and
not-found bodies, which omit it). -/
structure ApiResponse where
  status : DemoStatus
  message : String
  httpCode : ℕ
  completedSamples : Option ℕ
deriving DecidableEq

/-- `get_aws_client` (`server.py` lines 73-80): returns the client, or
`None` when construction raises (the reason is only logged). -/
def get_aws_client (construction : Except String Unit) : Option Unit :=
  match construction with
  | .ok c => some c
  | .error _ => none

/-- `get_status` (`server.py` lines 108-167): unavailable client gives
ERROR/500; then the queue-describe call (a raise anywhere inside the
`try` is caught at line 165 and gives ERROR/500 with the exception
text); an empty queue list gives NOT_FOUND/404; otherwise the three
sequential `list_jobs` calls feed `aggregateStatus` into a 200 response.
The CloudWatch cost block always yields `costAccrued = 0.0` and cannot
affect the status, so it is not modelled. -/
def get_status (env : BatchEnv) : ApiResponse :=
  match get_aws_client env.batchClient with
  | none => ⟨.ERROR, "AWS Batch client not available", 500, none⟩
  | some _ =>
    match env.describeJobQueues with
    | .error e => ⟨.ERROR, e, 500, none⟩
    | .ok queues =>
      if queues.isEmpty then
        ⟨.NOT_FOUND, "Job queue not found", 404, none⟩
      else
        match env.listRunning, env.listSucceeded, env.listFailed with
        | .error e, _, _ => ⟨.ERROR, e, 500, none⟩
        | .ok _, .error e, _ => ⟨.ERROR, e, 500, none⟩
        | .ok _, .ok _, .error e => ⟨.ERROR, e, 500, none⟩
        | .ok r, .ok c, .ok f =>
          let res := aggregateStatus ⟨r, c, f⟩
          ⟨res.1, res.2.1, 200, some res.2.2⟩

/-- C1: the aggregator applies the four-way precedence in order —
RUNNING when runningCount > 0 (completedSamples = succeededCount), else
FAILED when failedCount > 0 and succeededCount = 0, else COMPLETED when
succeededCount > 0 (in particular with failures present: the documented
asymmetry), else READY with completedSamples 0 — and the four concrete
snapshots (2,5,0), (0,0,3), (0,5,3), (0,0,0) yield RUNNING/5, FAILED,
COMPLETED/5 and READY/0 respectively. -/
theorem C1_status_precedence (s : JobQueueSnapshot) :
    (s.runningCount > 0 →
      (aggregateStatus s).1 = .RUNNING ∧ (aggregateStatus s).2.2 = s.succeededCount) ∧
    (s.runningCount = 0 → s.failedCount > 0 → s.succeededCount = 0 →
      (aggregateStatus s).1 = .FAILED) ∧
    (s.runningCount = 0 → s.succeededCount > 0 →
      (aggregateStatus s).1 = .COMPLETED ∧ (aggregateStatus s).2.2 = s.succeededCount) ∧
    (s.runningCount = 0 → s.succeededCount = 0 → s.failedCount = 0 →
      (aggregateStatus s).1 = .READY ∧ (aggregateStatus s).2.2 = 0) ∧
    ((aggregateStatus ⟨2, 5, 0⟩).1 = .RUNNING ∧ (aggregateStatus ⟨2, 5, 0⟩).2.2 = 5) ∧
    (aggregateStatus ⟨0, 0, 3⟩).1 = .FAILED ∧
    ((aggregateStatus ⟨0, 5, 3⟩).1 = .COMPLETED ∧ (aggregateStatus ⟨0, 5, 3⟩).2.2 = 5) ∧
    ((aggregateStatus ⟨0, 0, 0⟩).1 = .READY ∧ (aggregateStatus ⟨0, 0, 0⟩).2.2 = 0) := by
  refine ⟨?_, ?_, ?_, ?_, by decide, by decide, by decide, by decide⟩
  · intro h
    simp only [aggregateStatus]
    rw [if_pos h]
    exact ⟨rfl, rfl⟩
  · intro h0 hf hc
    simp only [aggregateStatus]
    rw [if_neg (by omega), if_pos ⟨hf, hc⟩]
  · intro h0 hc
    simp only [aggregateStatus]
    rw [if_neg (by omega), if_neg (by rintro ⟨-, h⟩; omega), if_pos hc]
    exact ⟨rfl, rfl⟩
  · intro h0 hc hf
    simp only [aggregateStatus]
    rw [if_neg (by omega), if_neg (by rintro ⟨h, -⟩; omega), if_neg (by omega)]
    exact ⟨rfl, rfl⟩

/-- C1 witness at the snapshot (2, 5, 0). -/
theorem C1_witness :
    (⟨2, 5, 0⟩ : JobQueueSnapshot).runningCount > 0 ∧
    ((aggregateStatus ⟨2, 5, 0⟩).1 = .RUNNING ∧
      (aggregateStatus ⟨2, 5, 0⟩).2.2 = (⟨2, 5, 0⟩ : JobQueueSnapshot).succeededCount) :=
  ⟨by decide, (C1_status_precedence ⟨2, 5, 0⟩).1 (by decide)⟩

/-- The claim C4 as stated: whenever the batch client is available and
the queue-existence query either raises or returns an empty queue list,
the response is NOT_FOUND with the fixed message and HTTP 404. -/
def ClaimC4 : Prop :=
  ∀ env : BatchEnv, get_aws_client env.batchClient ≠ none →
    ((∃ e, env.describeJobQueues = .error e) ∨ env.describeJobQueues = .ok []) →
    get_status env = ⟨.NOT_FOUND, "Job queue not found", 404, none⟩

/-- C4 counterexample: when the queue-describe call raises, the
exception is caught by the outer handler and the response is ERROR with
HTTP 500, not NOT_FOUND/404. -/
theorem C4_counterexample : ¬ ClaimC4 := by
  intro h
  have := h ⟨.ok (), .error "connection reset", .ok 0, .ok 0, .ok 0⟩
    (by decide) (Or.inl ⟨"connection reset", rfl⟩)
  revert this
  decide

/-- C4 (amended): with the batch client available, an *empty* queue list
yields NOT_FOUND with the fixed message "Job queue not found" and HTTP
404, independently of the three job-state queries; a queue-describe call
that *raises* instead takes the generic ERROR/500 path carrying the
exception text. -/
theorem C4_not_found_amended (env : BatchEnv) :
    (env.batchClient = .ok () → env.describeJobQueues = .ok [] →
      get_status env = ⟨.NOT_FOUND, "Job queue not found", 404, none⟩) ∧
    (∀ e, env.batchClient = .ok () → env.describeJobQueues = .error e →
      get_status env = ⟨.ERROR, e, 500, none⟩) := by
  obtain ⟨bc, dq, r, c, f⟩ := env
  constructor
  · rintro rfl rfl
    rfl
  · rintro e rfl rfl
    rfl

/-- C4 witness: an environment whose queue list is empty, with all three
job queries succeeding, gets the NOT_FOUND/404 response. -/
theorem C4_witness :
    (⟨.ok (), .ok [], .ok 1, .ok 2, .ok 3⟩ : BatchEnv).batchClient = .ok () ∧
    get_status ⟨.ok (), .ok [], .ok 1, .ok 2, .ok 3⟩ =
      ⟨.NOT_FOUND, "Job queue not found", 404, none⟩ :=
  ⟨rfl, (C4_not_found_amended ⟨.ok (), .ok [], .ok 1, .ok 2, .ok 3⟩).1 rfl rfl⟩

/-- The needle is an initial segment of the haystack. -/
def startsWithChars : List Char → List Char → Bool
  | [], _ => true
  | _ :: _, [] => false
  | n :: ns, h :: hs => n == h && startsWithChars ns hs

/-- The needle occurs contiguously somewhere in the haystack. -/
def containsChars (needle : List Char) : List Char → Bool
  | [] => needle.isEmpty
  | h :: hs => startsWithChars needle (h :: hs) || containsChars needle hs

/-- Substring containment between strings, used to state that one
message "carries" another piece of text. -/
def strContains (hay needle : String) : Bool :=
  containsChars needle.toList hay.toList

/-- The claim C5 as stated: whenever batch-client construction fails,
the `/api/status` response has status ERROR, HTTP 500, and a message
carrying the underlying failure reason. -/
def ClaimC5 : Prop :=
  ∀ (reason : String) (env : BatchEnv), env.batchClient = .error reason →
    (get_status env).status = .ERROR ∧ (get_status env).httpCode = 500 ∧
    strContains (get_status env).message reason = true

/-- C5 counterexample: when construction fails with reason
"bad credentials", the response message is the fixed string
"AWS Batch client not available", which does not carry the reason
(`get_aws_client` only logs it and returns `None`). -/
theorem C5_counterexample : ¬ ClaimC5 := by
  intro h
  have := (h "bad credentials"
    ⟨.error "bad credentials", .ok ["q"], .ok 0, .ok 0, .ok 0⟩ rfl).2.2
  revert this
  decide

/-- C5 (amended): whenever batch-client construction fails, the
response is ERROR with the *fixed generic* message
"AWS Batch client not available" (the underlying reason is only logged
server-side) and HTTP 500, produced independently of the queue and
job-state queries, i.e. before any of them is attempted. -/
theorem C5_error_amended (env : BatchEnv) (reason : String)
    (h : env.batchClient = .error reason) :
    get_status env = ⟨.ERROR, "AWS Batch client not available", 500, none⟩ := by
  obtain ⟨bc, dq, r, c, f⟩ := env
  cases h
  rfl

/-- C5 witness: construction failing with "bad credentials" yields the
fixed ERROR/500 response. -/
theorem C5_witness :
    (⟨.error "bad credentials", .ok ["q"], .ok 0, .ok 0, .ok 0⟩ : BatchEnv).batchClient =
      .error "bad credentials" ∧
    get_status ⟨.error "bad credentials", .ok ["q"], .ok 0, .ok 0, .ok 0⟩ =
      ⟨.ERROR, "AWS Batch client not available", 500, none⟩ :=
  ⟨rfl, C5_error_amended ⟨.error "bad credentials", .ok ["q"], .ok 0, .ok 0, .ok 0⟩
    "bad credentials" rfl⟩

/-- An exception reaching the Flask route boundary: either a
`ValueError` with its message, or any other exception with its class
name and message. -/
inductive PyException where
  | valueError (msg : String)
  | otherExc (kind : String) (msg : String)
deriving DecidableEq

/-- An error response: JSON error body text and HTTP code. -/
structure ErrorResponse where
  body : String
  httpCode : ℕ
deriving DecidableEq

/-- `handle_exception` (`server.py` lines 83-94): `ValueError` becomes a
400 echoing `str(e)`; every other exception is logged and becomes a 500
with a fixed generic body. -/
def handle_exception : PyException → ErrorResponse
  | .valueError m => ⟨m, 400⟩
  | .otherExc _ _ => ⟨"An internal server error occurred", 500⟩

/-- C8: every exception reaching the boundary gets a response (HTTP 400
or 500, never an escape); a `ValueError` yields 400 with its specific
message; any other exception yields 500 with the generic
internal-server-error body, which is independent of the exception's
class and detail (so the detail cannot be included in it). -/
theorem C8_handle_exception (e : PyException) :
    ((handle_exception e).httpCode = 400 ∨ (handle_exception e).httpCode = 500) ∧
    (∀ m, e = .valueError m → handle_exception e = ⟨m, 400⟩) ∧
    (∀ k m, e = .otherExc k m →
      handle_exception e = ⟨"An internal server error occurred", 500⟩ ∧
      ∀ k2 m2, handle_exception (.otherExc k2 m2) = handle_exception e) := by
  refine ⟨?_, ?_, ?_⟩
  · cases e with
    | valueError m => exact Or.inl rfl
    | otherExc k m => exact Or.inr rfl
  · rintro m rfl
    rfl
  · rintro k m rfl
    exact ⟨rfl, fun k2 m2 => rfl⟩

/-- C8 witness: a `ValueError` carrying "invalid sample count" is
returned as a 400 with that message, and an unexpected `KeyError` as the
generic 500. -/
theorem C8_witness :
    (PyException.valueError "invalid sample count" =
      PyException.valueError "invalid sample count") ∧
    handle_exception (.valueError "invalid sample count") =
      ⟨"invalid sample count", 400⟩ :=
  ⟨rfl, (C8_handle_exception (.valueError "invalid sample count")).2.1
    "invalid sample count" rfl⟩

/-- `time_minutes = current_time % 15` (`server.py` line 185): Python's
float `%` with positive modulus 15, i.e. `now - 15 * ⌊now / 15⌋`. -/
def time_minutes (now : ℚ) : ℚ := now - 15 * ⌊now / 15⌋

/-- The spec's words for the same quantity, for comparison:
`timeWithinWindow = nowSeconds mod 900` seconds, expressed in minutes. -/
def specTimeWithinWindow (now : ℚ) : ℚ := (now - 900 * ⌊now / 900⌋) / 60

/-- `simulate_cpu_count` (`server.py` lines 188-197), with `int()` as
truncation and Python `min` as `min`. -/
def simulate_cpu_count (t : ℚ) : ℤ :=
  if t < 1 then pyInt (t * 20)
  else if t < 3 then pyInt (20 + (t - 1) * 70)
  else if t < 8 then 160
  else if t < 10 then pyInt (160 - (t - 8) * 60)
  else pyInt (40 - (min t 13 - 10) * 10)

/-- The `gpu_util` expression (`server.py` line 204): `0` before minute
10, else `80` plus the uniform noise draw `u` of that call. -/
def gpu_util (t u : ℚ) : ℚ := if t < 10 then 0 else 80 + u

/-- C3, code evaluation at the failing input: at `nowSeconds = 60` the
code reports `60 % 15 = 0` minutes while the claimed value
`(60 mod 900) / 60` is `1` minute; moreover one wall-clock second (60 to
61) advances the code's value by a full unit, not by `1/60`. -/
theorem C3_code_divergence :
    time_minutes 60 = 0 ∧ specTimeWithinWindow 60 = 1 ∧
    time_minutes 60 ≠ specTimeWithinWindow 60 ∧
    time_minutes 61 = time_minutes 60 + 1 := by
  refine ⟨?_, ?_, ?_, ?_⟩ <;> norm_num [time_minutes, specTimeWithinWindow]

/-- C6: the simulated CPU count is the code's piecewise-linear function
of the minute value `t`, truncated per segment, with
`simulate_cpu_count 0 = 0`, `simulate_cpu_count 5 = 160`,
`simulate_cpu_count 9` strictly between 40 and 160, and the GPU
utilization exactly 0 for every `t < 10`. -/
theorem C6_simulator_values (t u : ℚ) :
    simulate_cpu_count 0 = 0 ∧
    simulate_cpu_count 5 = 160 ∧
    (40 < simulate_cpu_count 9 ∧ simulate_cpu_count 9 < 160) ∧
    (t < 10 → gpu_util t u = 0) ∧
    (0 ≤ t → t < 1 → simulate_cpu_count t = pyInt (t * 20)) ∧
    (1 ≤ t → t < 3 → simulate_cpu_count t = pyInt (20 + (t - 1) * 70)) ∧
    (3 ≤ t → t < 8 → simulate_cpu_count t = 160) ∧
    (8 ≤ t → t < 10 → simulate_cpu_count t = pyInt (160 - (t - 8) * 60)) ∧
    (10 ≤ t → simulate_cpu_count t = pyInt (40 - (min t 13 - 10) * 10)) := by
  refine ⟨by norm_num [simulate_cpu_count, pyInt],
    by norm_num [simulate_cpu_count, pyInt],
    ⟨by norm_num [simulate_cpu_count, pyInt], by norm_num [simulate_cpu_count, pyInt]⟩,
    ?_, ?_, ?_, ?_, ?_, ?_⟩
  · intro h
    rw [gpu_util, if_pos h]
  · intro _ h1
    rw [simulate_cpu_count, if_pos h1]
  · intro h1 h3
    rw [simulate_cpu_count, if_neg (by linarith), if_pos h3]
  · intro h3 h8
    rw [simulate_cpu_count, if_neg (by linarith), if_neg (by linarith), if_pos h8]
  · intro h8 h10
    rw [simulate_cpu_count, if_neg (by linarith), if_neg (by linarith),
      if_neg (by linarith), if_pos h10]
  · intro h10
    rw [simulate_cpu_count, if_neg (by linarith), if_neg (by linarith),
      if_neg (by linarith), if_neg (by linarith)]

/-- C6 witness at `t = 19/2` (inside the ramp-down segment, before
minute 10) with noise draw `u = 3`. -/
theorem C6_witness :
    ((19 : ℚ) / 2 < 10 ∧ gpu_util (19 / 2) 3 = 0) ∧
    (8 ≤ (19 : ℚ) / 2 ∧ (19 : ℚ) / 2 < 10 ∧
      simulate_cpu_count (19 / 2) = pyInt (160 - ((19 : ℚ) / 2 - 8) * 60)) :=
  ⟨⟨by norm_num, (C6_simulator_values (19 / 2) 3).2.2.2.1 (by norm_num)⟩,
    ⟨by norm_num, by norm_num,
      (C6_simulator_values (19 / 2) 3).2.2.2.2.2.2.2.1 (by norm_num) (by norm_num)⟩⟩

theorem pyInt_nonneg {x : ℚ} (h : 0 ≤ x) : 0 ≤ pyInt x := by
  rw [pyInt, if_pos h]
  exact Int.floor_nonneg.mpr h

theorem pyInt_le {x : ℚ} {n : ℤ} (h : x ≤ (n : ℚ)) : pyInt x ≤ n := by
  rw [pyInt]
  split
  · calc ⌊x⌋ ≤ ⌊(n : ℚ)⌋ := Int.floor_mono h
      _ = n := Int.floor_intCast n
  · exact Int.ceil_le.mpr h

/-- C10: for every minute value in the window `[0, 15)` the simulated
CPU count lies in `[0, 160]`, and on `[13, 15)` it is the constant 10 —
after the ramp-down it bottoms out at 10, never reaching 0. -/
theorem C10_cpu_bounds (t : ℚ) :
    (0 ≤ t → t < 15 → 0 ≤ simulate_cpu_count t ∧ simulate_cpu_count t ≤ 160) ∧
    (13 ≤ t → t < 15 → simulate_cpu_count t = 10) := by
  constructor
  · intro h0 h15
    rcases lt_or_le t 1 with h1 | h1
    · rw [simulate_cpu_count, if_pos h1]
      exact ⟨pyInt_nonneg (by nlinarith), pyInt_le (by push_cast; nlinarith)⟩
    rcases lt_or_le t 3 with h3 | h3
    · rw [simulate_cpu_count, if_neg (by linarith), if_pos h3]
      exact ⟨pyInt_nonneg (by nlinarith), pyInt_le (by push_cast; nlinarith)⟩
    rcases lt_or_le t 8 with h8 | h8
    · rw [simulate_cpu_count, if_neg (by linarith), if_neg (by linarith), if_pos h8]
      exact ⟨by norm_num, by norm_num⟩
    rcases lt_or_le t 10 with h10 | h10
    · rw [simulate_cpu_count, if_neg (by linarith), if_neg (by linarith),
        if_neg (by linarith), if_pos h10]
      exact ⟨pyInt_nonneg (by nlinarith), pyInt_le (by push_cast; nlinarith)⟩
    · rw [simulate_cpu_count, if_neg (by linarith), if_neg (by linarith),
        if_neg (by linarith), if_neg (by linarith)]
      have hm1 : 10 ≤ min t 13 := le_min h10 (by norm_num)
      have hm2 : min t 13 ≤ 13 := min_le_right t 13
      exact ⟨pyInt_nonneg (by nlinarith), pyInt_le (by push_cast; nlinarith)⟩
  · intro h13 h15
    rw [simulate_cpu_count, if_neg (by linarith), if_neg (by linarith),
      if_neg (by linarith), if_neg (by linarith), min_eq_right h13]
    norm_num [pyInt]

/-- C10 witness at `t = 14`. -/
theorem C10_witness :
    ((0 : ℚ) ≤ 14 ∧ (14 : ℚ) < 15 ∧
      0 ≤ simulate_cpu_count 14 ∧ simulate_cpu_count 14 ≤ 160) ∧
    ((13 : ℚ) ≤ 14 ∧ simulate_cpu_count 14 = 10) :=
  ⟨⟨by norm_num, by norm_num,
      ((C10_cpu_bounds 14).1 (by norm_num) (by norm_num)).1,
      ((C10_cpu_bounds 14).1 (by norm_num) (by norm_num)).2⟩,
    ⟨by norm_num, (C10_cpu_bounds 14).2 (by norm_num) (by norm_num)⟩⟩

/-- The four fields of the variant-statistics JSON object. -/
structure VariantStats where
  totalVariants : ℕ
  transitions : ℕ
  transversions : ℕ
  tiTvRatio : ℚ
deriving DecidableEq

/-- The fixed fallback constants of `get_stats` (`server.py` lines
236-241). -/
def mockStats : VariantStats := ⟨243826, 167538, 76288, 2196 / 1000⟩

/-- What the upstream S3 interactions of `/api/stats` would do: client
construction, and the `get_object` read-and-parse of
`results/stats/stats.json` (which may raise). -/
structure S3Env where
  s3Client : Except String Unit
  getObject : Except String VariantStats

/-- A `/api/stats` response: either a statistics body or an error body,
each with its HTTP code. -/
inductive StatsResponse where
  | stats (v : VariantStats) (code : ℕ)
  | errorBody (msg : String) (code : ℕ)
deriving DecidableEq

/-- `get_stats` (`server.py` lines 218-245): unavailable client gives a
500; a successful object read returns its parsed body; a failed read is
logged and replaced by the fixed mock constants with HTTP 200. -/
def get_stats (env : S3Env) : StatsResponse :=
  match get_aws_client env.s3Client with
  | none => .errorBody "S3 client not available" 500
  | some _ =>
    match env.getObject with
    | .ok data => .stats data 200
    | .error _ => .stats mockStats 200

/-- C7: whenever the object-store read fails, `/api/stats` returns
exactly the constants totalVariants 243826, transitions 167538,
transversions 76288, tiTvRatio 2.196, and these satisfy
transitions + transversions = totalVariants and
tiTvRatio ≈ transitions / transversions (within 1/1000). -/
theorem C7_stats_fallback (env : S3Env) :
    (∀ e, env.s3Client = .ok () → env.getObject = .error e →
      get_stats env = .stats ⟨243826, 167538, 76288, 2196 / 1000⟩ 200) ∧
    mockStats.transitions + mockStats.transversions = mockStats.totalVariants ∧
    |mockStats.tiTvRatio -
      (mockStats.transitions : ℚ) / (mockStats.transversions : ℚ)| < 1 / 1000 := by
  refine ⟨?_, by norm_num [mockStats], by norm_num [mockStats, abs_lt]⟩
  obtain ⟨c, o⟩ := env
  rintro e rfl rfl
  rfl

/-- C7 witness: a failing read (`NoSuchKey`) with an available client
returns the mock constants. -/
theorem C7_witness :
    (⟨.ok (), .error "NoSuchKey"⟩ : S3Env).s3Client = .ok () ∧
    get_stats ⟨.ok (), .error "NoSuchKey"⟩ =
      .stats ⟨243826, 167538, 76288, 2196 / 1000⟩ 200 :=
  ⟨rfl, (C7_stats_fallback ⟨.ok (), .error "NoSuchKey"⟩).1 "NoSuchKey" rfl rfl⟩

end OmicsDemo
